import Mathlib

/-!
Shallow embedding of `downloader.py` (a CLI YouTube downloader front end).

Conventions of the embedding:
* Python strings are Lean `String`s.  Python's `str.lower` / `str.isdigit`
  are modelled on the ASCII range (`Char.toLower` / `Char.isDigit`), which
  covers every input the program's own documentation mentions.
* Python floats are modelled as exact rationals (`ℚ`); `int(x)` on a
  non-negative value is `Rat.floor`.
* The filesystem (`os.path.exists`), file reads/writes and the retrieval
  engine are opaque effects; they are passed in as explicit parameters
  (a predicate `String → Bool`, an `Except String _` outcome, ...).
* A Python function that may raise is embedded with an `Except String`
  result; `try ... except Exception: pass` is embedded by matching on that
  result and mapping every `error` to the handler's value.
* Terminal output is reified as a list of `Write`s, one per `print` call.
-/

/-- JSON values, as produced by `json.load` in `load_config`. -/
inductive Json where
  | null
  | bool (b : Bool)
  | num (q : ℚ)
  | str (s : String)
  | arr (elems : List Json)
  | obj (fields : List (String × Json))

/-- Lookup in a Python dict modelled as an association list
(`config.get(key)` / `config[key]`). -/
def dictGet : List (String × Json) → String → Option Json
  | [], _ => none
  | p :: rest, k => if p.1 = k then some p.2 else dictGet rest k

/-- Update/insert in a Python dict modelled as an association list
(`config[key] = value`): replaces the value at an existing key in place,
otherwise appends the new binding. -/
def dictSet : List (String × Json) → String → Json → List (String × Json)
  | [], k, v => [(k, v)]
  | p :: rest, k, v => if p.1 = k then (k, v) :: rest else p :: dictSet rest k v

/-- `load_config` (downloader.py lines 11-18).
`fileExists` models `os.path.exists(CONFIG_FILE)`; `readParse` models the
combined outcome of `open` + `json.load` (an exception or the parsed JSON).
The `try ... except Exception: pass` plus the trailing `return {}` make the
result `{}` on a missing file and on every raised error. -/
def load_config (fileExists : Bool) (readParse : Except String Json) :
    Except String Json :=
  match (if fileExists then readParse.map some else .ok none) with
  | .ok (some j) => .ok j
  | .ok none => .ok (Json.obj [])
  | .error _ => .ok (Json.obj [])

/-- `save_config` (downloader.py lines 21-26).
`writeOutcome` models the I/O outcome of `open` + `json.dump`.  The first
component is what the caller observes (the `except Exception: pass` swallows
every error, so it is always `ok ()`); the second component is the file
content actually written (`none` when the write failed). -/
def save_config (writeOutcome : Except String Unit) (config : List (String × Json)) :
    Except String Unit × Option (List (String × Json)) :=
  match writeOutcome with
  | .ok _ => (.ok (), some config)
  | .error _ => (.ok (), none)

/-- Python's `str.lower` (ASCII), character-wise over the string's data;
equivalent to `String.toLower`, stated over `List Char` so that concrete
instances reduce in the kernel. -/
def lowerStr (s : String) : String :=
  String.mk (s.data.map Char.toLower)

/-- Python's `str.startswith`, as a prefix test on the character data
(equivalent to `String.startsWith`). -/
def startsWithStr (s pre : String) : Bool :=
  pre.data.isPrefixOf s.data

/-- Python's `str.strip()`: remove leading and trailing whitespace
(equivalent to `String.trim`). -/
def trimStr (s : String) : String :=
  String.mk (((s.data.dropWhile Char.isWhitespace).reverse.dropWhile
    Char.isWhitespace).reverse)

/-- Python's `int(...)` applied to a string: succeeds on a nonempty string
of (ASCII) decimal digits, yielding its decimal value, and raises otherwise
(modelled as `none`).  The call sites below only ever pass digit-filtered
strings, for which this is exactly `int`'s behaviour. -/
def parseInt (s : String) : Option Nat :=
  if s.data ≠ [] ∧ s.data.all (fun c => c.isDigit) then
    some (s.data.foldl (fun n c => n * 10 + (c.toNat - Char.toNat '0')) 0)
  else none

/-- The height-capped format selector built by the f-string on
downloader.py line 40. -/
def heightSelector (h : Nat) : String :=
  "best[height<=" ++ toString h ++ "]/bestvideo[height<=" ++ toString h ++
    "]+bestaudio/best"

/-- The membership test `quality.lower() in ("best", "best available", "auto")`
on downloader.py line 34. -/
def isBestLabel (quality : String) : Bool :=
  lowerStr quality = "best" || lowerStr quality = "best available" ||
    lowerStr quality = "auto"

/-- `"".join(ch for ch in quality if ch.isdigit())` on downloader.py line 37:
all digit characters of the input, concatenated in original order. -/
def digitString (quality : String) : String :=
  String.mk (quality.data.filter (fun c => c.isDigit))

/-- `quality_to_format` (downloader.py lines 33-40).  `int(...)` raises on an
empty digit string (and only then, for ASCII digit strings), which the
`except` arm turns into the default height 1080; this is embedded by the
`none` branch of `parseInt`. -/
def quality_to_format (quality : String) : String :=
  if isBestLabel quality then "best"
  else
    let height : Nat :=
      match parseInt (digitString quality) with
      | some n => n
      | none => 1080
    heightSelector height

/-- `normalize_url` (downloader.py lines 125-136).  `pathExists` models
`os.path.exists`; `none` is Python's `None` ("invalid"). -/
def normalize_url (pathExists : String → Bool) (url : String) : Option String :=
  if url = "" then none
  else
    let u := trimStr url
    if pathExists u then none
    else if startsWithStr (lowerStr u) "http://" ||
        startsWithStr (lowerStr u) "https://" then
      some u
    else if startsWithStr (lowerStr u) "www." ||
        startsWithStr (lowerStr u) "youtube.com" ||
        startsWithStr (lowerStr u) "m.youtube.com" ||
        startsWithStr (lowerStr u) "youtu.be" then
      some ("https://" ++ u)
    else none

/-- Modelled from the spec (section 4.2 UrlNormalizer), for the refinement
claim about `normalize_url`: trim; an existing local path is invalid; an
`http(s)://`-headed string is returned as-is (trimmed); a
`www./youtube.com/m.youtube.com/youtu.be`-headed string gets `https://`
prepended; everything else is invalid. -/
def normalizeUrlSpec (pathExists : String → Bool) (url : String) : Option String :=
  let u := trimStr url
  if pathExists u then none
  else if startsWithStr (lowerStr u) "http://" ||
      startsWithStr (lowerStr u) "https://" then
    some u
  else if startsWithStr (lowerStr u) "www." ||
      startsWithStr (lowerStr u) "youtube.com" ||
      startsWithStr (lowerStr u) "m.youtube.com" ||
      startsWithStr (lowerStr u) "youtu.be" then
    some ("https://" ++ u)
  else none

/-- In-memory de-dup state of `ConsoleProgress` (downloader.py lines 44-46):
`_last_shown` starts at `-1`, `_finished_line_printed` at `false`. -/
structure RState where
  lastShown : Int
  finishedLinePrinted : Bool
deriving DecidableEq, Repr

/-- The fresh renderer state built by `ConsoleProgress.__init__`. -/
def initState : RState := { lastShown := -1, finishedLinePrinted := false }

/-- One progress-hook dict `d` as passed by the retrieval engine.  Absent
keys are `none`; speeds are exact rationals standing for Python floats. -/
structure Snapshot where
  status : Option String
  downloadedBytes : Option Nat
  totalBytes : Option Nat
  totalBytesEstimate : Option Nat
  speed : Option ℚ
  eta : Option Nat
deriving DecidableEq, Repr

/-- One `print` call of the renderer: `carriage s` is
`print(f"\r{line}", end="")` with payload `s`; `blank` is the bare `print()`;
`line s` is `print(s)` (newline-terminated). -/
inductive Write where
  | carriage (s : String)
  | blank
  | line (s : String)
deriving DecidableEq, Repr

/-- Zero-padding of Python's `{n:02d}` for a natural number. -/
def pad2 (n : Nat) : String :=
  if n < 10 then "0" ++ toString n else toString n

/-- Space-padding of Python's `{p:3d}`. -/
def padLeft3 (s : String) : String :=
  if s.length < 3 then String.mk (List.replicate (3 - s.length) ' ') ++ s else s

/-- Python's `f"{b:.2f}"` on a non-negative rational: two decimal places,
rounding half up (an exact-arithmetic stand-in for float formatting; no
claim depends on the rounding mode). -/
def format2 (q : ℚ) : String :=
  let n : Int := (q * 100 + 1 / 2).floor
  toString (n / 100) ++ "." ++ pad2 (n % 100).toNat

/-- The `while bps >= 1024 and i < len(units) - 1` loop of `_human_speed`
(downloader.py lines 68-70), with `len(units) - 1 = 3`. -/
def speedScale (b : ℚ) (i : Nat) : ℚ × Nat :=
  if h : 1024 ≤ b ∧ i < 3 then speedScale (b / 1024) (i + 1) else (b, i)
termination_by 3 - i
decreasing_by omega

/-- `ConsoleProgress._human_speed` (downloader.py lines 63-71).  `not bps`
is true for an absent or zero speed. -/
def _human_speed (bps : Option ℚ) : String :=
  match bps with
  | none => "?"
  | some b =>
    if b = 0 then "?"
    else
      let r := speedScale b 0
      format2 r.1 ++ " " ++ (["B/s", "KB/s", "MB/s", "GB/s"].getD r.2 "")

/-- `ConsoleProgress._format_eta` (downloader.py lines 73-80). -/
def _format_eta (seconds : Option Nat) : String :=
  match seconds with
  | none => "?"
  | some secs =>
    let m := secs / 60
    let s := secs % 60
    let h := m / 60
    let m2 := m % 60
    if h ≠ 0 then toString h ++ ":" ++ pad2 m2 ++ ":" ++ pad2 s
    else pad2 m2 ++ ":" ++ pad2 s

/-- `int(max(0.0, min(100.0, (downloaded / total) * 100.0)))` on
downloader.py line 57, in exact rational arithmetic (`int` truncates toward
zero, which on the clamped non-negative value is the floor). -/
def computePercent (downloaded total : Nat) : Int :=
  (max (0 : ℚ) (min 100 ((downloaded : ℚ) / (total : ℚ) * 100))).floor

/-- `ConsoleProgress._print_progress` (downloader.py lines 82-93): state
transition plus emitted writes. -/
def _print_progress (st : RState) (percent : Option Int) (speed : Option ℚ)
    (eta : Option Nat) : RState × List Write :=
  match percent with
  | none =>
    ({ st with finishedLinePrinted := false },
      [Write.carriage ("Downloading... (unknown size) | " ++ _human_speed speed ++
        " | ETA " ++ _format_eta eta)])
  | some p =>
    if p = st.lastShown then (st, [])
    else
      ({ lastShown := p, finishedLinePrinted := false },
        [Write.carriage ("Downloading: " ++ padLeft3 (toString p) ++ "% | " ++
          _human_speed speed ++ " | ETA " ++ _format_eta eta)])

/-- `ConsoleProgress._println` (downloader.py lines 95-99): the bare
newline is emitted only when `_finished_line_printed` is still false; the
text line itself is always emitted. -/
def _println (st : RState) (text : String) : RState × List Write :=
  if st.finishedLinePrinted then (st, [Write.line text])
  else ({ st with finishedLinePrinted := true }, [Write.blank, Write.line text])

/-- `ConsoleProgress.hook` (downloader.py lines 48-61).  `downloaded_bytes
or 0` maps an absent or zero value to 0; `total_bytes or
total_bytes_estimate` falls through when `total_bytes` is absent or zero;
`if total and total > 0` guards the percent computation. -/
def hook (st : RState) (d : Snapshot) : RState × List Write :=
  if d.status = some "downloading" then
    let downloaded := d.downloadedBytes.getD 0
    let total : Option Nat :=
      match d.totalBytes with
      | some n => if n = 0 then d.totalBytesEstimate else some n
      | none => d.totalBytesEstimate
    let percent : Option Int :=
      match total with
      | some t => if 0 < t then some (computePercent downloaded t) else none
      | none => none
    _print_progress st percent d.speed d.eta
  else if d.status = some "finished" then
    let r1 := _print_progress st (some 100) none none
    let r2 := _println r1.1 "Processing file..."
    (r2.1, r1.2 ++ r2.2)
  else (st, [])

/-- Feeding a sequence of progress events to one renderer, collecting all
writes in order. -/
def runHooks (st : RState) : List Snapshot → RState × List Write
  | [] => (st, [])
  | e :: rest =>
    let r1 := hook st e
    let r2 := runHooks r1.1 rest
    (r2.1, r1.2 ++ r2.2)

/-- A downloading-status snapshot with known total size and no speed/ETA. -/
def dlSnap (downloaded total : Nat) : Snapshot :=
  { status := some "downloading", downloadedBytes := some downloaded,
    totalBytes := some total, totalBytesEstimate := none,
    speed := none, eta := none }

/-- A downloading-status snapshot with no size information (unknown-size
render). -/
def unknownSnap : Snapshot :=
  { status := some "downloading", downloadedBytes := some 1,
    totalBytes := none, totalBytesEstimate := none,
    speed := none, eta := none }

/-- A finished-status snapshot. -/
def finSnap : Snapshot :=
  { status := some "finished", downloadedBytes := none, totalBytes := none,
    totalBytesEstimate := none, speed := none, eta := none }

/-- Writes of a list that are in-place progress renders (`carriage`). -/
def carriageWrites (ws : List Write) : List Write :=
  ws.filter fun w => match w with | Write.carriage _ => true | _ => false

/-- Number of occurrences of the newline-terminated line `text`. -/
def countLine (ws : List Write) (text : String) : Nat :=
  ws.count (Write.line text)

/-- Number of bare newlines (`print()` calls). -/
def countBlank (ws : List Write) : Nat :=
  ws.count Write.blank

/-- The remediation hint appended on downloader.py lines 223-224 when the
engine's error message mentions ffmpeg. -/
def ffmpegHint : String :=
  "\nNote: Some quality options require ffmpeg. Try --quality best, or install ffmpeg: https://ffmpeg.org/download.html"

/-- The substring test `"ffmpeg" in err.lower()` on downloader.py line 222. -/
def mentionsFfmpeg (err : String) : Bool :=
  decide ("ffmpeg".data <:+: (lowerStr err).data)

/-- Observable outcome of the final section of `main`: the returned exit
code, the lines printed to the error stream, and the config record passed
to `save_config` (`none` when `save_config` was never called, so the
persisted preference file is left untouched). -/
structure PhaseResult where
  exitCode : Nat
  stderrLines : List String
  written : Option (List (String × Json))

/-- The download phase of `main` (downloader.py lines 212-226), given the
already-resolved preference record, output directory and quality, and the
outcome of the retrieval-engine invocation `ydl.download([url])`.  On
success the loaded record is mutated in place with the two recognized keys
and handed to `save_config`, and 0 is returned; on an engine error the
message (with the ffmpeg hint appended when applicable) is printed to the
error stream, `save_config` is not called, and 1 is returned. -/
def downloadPhase (config : List (String × Json)) (outDir quality : String)
    (engine : Except String Unit) : PhaseResult :=
  match engine with
  | .ok _ =>
    let config1 := dictSet config "download_location" (Json.str outDir)
    let config2 := dictSet config1 "quality" (Json.str quality)
    { exitCode := 0, stderrLines := [], written := some config2 }
  | .error e =>
    let err := if mentionsFfmpeg e then e ++ ffmpegHint else e
    { exitCode := 1, stderrLines := ["Download failed: " ++ err], written := none }

/-! ## Helper lemmas -/

theorem heightSelector_ne_empty (h : Nat) : heightSelector h ≠ "" := by
  intro he
  have hd := congrArg String.data he
  simp [heightSelector, String.data_append] at hd

theorem digitString_all_digits (q : String) :
    (digitString q).data.all (fun c => c.isDigit) = true :=
  List.all_eq_true.mpr fun _ hc => (List.mem_filter.mp hc).2

theorem parseInt_digitString (q : String) (h : digitString q ≠ "") :
    ∃ n, parseInt (digitString q) = some n := by
  rw [parseInt, if_pos ⟨fun hd => h (String.ext hd), digitString_all_digits q⟩]
  exact ⟨_, rfl⟩

/-! ## Claim theorems -/

/-- C3, counterexample: `quality_to_format "4k2160"` is not the selector
whose height cap is 2160 — the digit concatenation of `"4k2160"` is
`"42160"`, so the cap is 42160. -/
theorem c3_counterexample :
    quality_to_format "4k2160" ≠ heightSelector 2160 := by decide

/-- C3, amended: applied to `"4k2160"`, `quality_to_format` returns the
format selector whose height cap is 42160 (all digit characters of the
input concatenated in original order, then parsed as one integer). -/
theorem c3_amended :
    quality_to_format "4k2160" = heightSelector 42160 := by decide

/-- C5: `quality_to_format` is total over all strings; a lowercased input
in `{best, best available, auto}` yields the best-overall selector;
otherwise the result is the layered height-capped selector whose height is
parsed from all digit characters concatenated in original order, with 1080
when the input has no digits; the result is never the empty string. -/
theorem c5_total (q : String) :
    quality_to_format q ≠ "" ∧
    (isBestLabel q = true → quality_to_format q = "best") ∧
    (isBestLabel q = false → digitString q = "" →
      quality_to_format q = heightSelector 1080) ∧
    (∀ n : Nat, isBestLabel q = false → parseInt (digitString q) = some n →
      quality_to_format q = heightSelector n) ∧
    (digitString q ≠ "" → ∃ n, parseInt (digitString q) = some n) := by
  refine ⟨?_, ?_, ?_, ?_, parseInt_digitString q⟩
  · rw [quality_to_format]
    split
    · decide
    · exact heightSelector_ne_empty _
  · intro h
    rw [quality_to_format, if_pos h]
  · intro h he
    rw [quality_to_format, if_neg (by simp [h]), he]
    rfl
  · intro n h hp
    rw [quality_to_format, if_neg (by simp [h]), hp]

/-- C5, witness: `quality_to_format` at `"720p"`, with the hypotheses of
`c5_total` discharged at that concrete input. -/
theorem c5_total_witness : quality_to_format "720p" = heightSelector 720 :=
  (c5_total "720p").2.2.2.1 720 (by decide) (by decide)

/-- C6: `normalize_url` is total (it is a plain function, defined for every
string including the empty one) and implements exactly the spec's case
analysis, here captured by `normalizeUrlSpec`: trim; an existing local
path is invalid; an `http://`/`https://`-headed string (case-insensitive)
is returned trimmed and otherwise unchanged; a string headed by one of
`www.`, `youtube.com`, `m.youtube.com`, `youtu.be` gets `https://`
prepended; everything else is invalid. -/
theorem c6_normalize_url (pathExists : String → Bool) (url : String) :
    normalize_url pathExists url = normalizeUrlSpec pathExists url := by
  by_cases h : url = ""
  · subst h
    rw [normalize_url, if_pos rfl, normalizeUrlSpec]
    rcases hex : pathExists (trimStr "") with _ | _
    · rw [if_neg (by decide)]
      decide
    · rw [if_pos rfl]
  · rw [normalize_url, if_neg h, normalizeUrlSpec]

theorem dictGet_dictSet_self (kvs : List (String × Json)) (k : String) (v : Json) :
    dictGet (dictSet kvs k v) k = some v := by
  induction kvs with
  | nil => simp [dictSet, dictGet]
  | cons p rest ih =>
    by_cases h : p.1 = k
    · simp [dictSet, dictGet, h]
    · simp [dictSet, dictGet, h, ih]

theorem dictGet_dictSet_ne (kvs : List (String × Json)) (k : String) (v : Json)
    (k2 : String) (hne : k2 ≠ k) :
    dictGet (dictSet kvs k v) k2 = dictGet kvs k2 := by
  have hkk2 : ¬(k = k2) := fun hh => hne hh.symm
  induction kvs with
  | nil => simp only [dictSet, dictGet, if_neg hkk2]
  | cons p rest ih =>
    simp only [dictSet]
    by_cases h : p.1 = k
    · have hp : ¬(p.1 = k2) := fun hh => hne (h.symm.trans hh).symm
      rw [if_pos h]
      simp only [dictGet, if_neg hkk2, if_neg hp]
    · rw [if_neg h]
      by_cases h2 : p.1 = k2
      · simp only [dictGet, if_pos h2]
      · simp only [dictGet, if_neg h2, ih]

theorem string_data_append_assoc (a b : String) :
    (a ++ b).data = a.data ++ b.data := String.data_append a b

/-- C7: the preference file is written only after a successful download.
On an engine error, the download phase of `main` returns exit code 1,
prints a single error-stream line that carries the engine's message, and
never calls `save_config` (the persisted record is untouched); on success
it returns exit code 0 and hands `save_config` the record holding
`download_location = outDir` and `quality = quality`. -/
theorem c7_save_only_on_success (config : List (String × Json))
    (outDir quality : String) :
    (∀ msg : String,
      (downloadPhase config outDir quality (Except.error msg)).exitCode = 1 ∧
      (downloadPhase config outDir quality (Except.error msg)).written = none ∧
      ∃ line,
        (downloadPhase config outDir quality (Except.error msg)).stderrLines
          = [line] ∧
        ("Download failed: " ++ msg).data <+: line.data) ∧
    ((downloadPhase config outDir quality (Except.ok ())).exitCode = 0 ∧
      ∃ final,
        (downloadPhase config outDir quality (Except.ok ())).written = some final ∧
        dictGet final "download_location" = some (Json.str outDir) ∧
        dictGet final "quality" = some (Json.str quality)) := by
  constructor
  · intro msg
    refine ⟨rfl, rfl, _, rfl, ?_⟩
    show (("Download failed: " ++ msg).data <+:
      ("Download failed: " ++ if mentionsFfmpeg msg then msg ++ ffmpegHint else msg).data)
    by_cases h : mentionsFfmpeg msg
    · rw [if_pos h, string_data_append_assoc, string_data_append_assoc,
        string_data_append_assoc, ← List.append_assoc]
      exact List.prefix_append _ _
    · rw [if_neg h]
  · refine ⟨rfl, _, rfl, ?_, dictGet_dictSet_self _ _ _⟩
    rw [dictGet_dictSet_ne _ _ _ _ (by decide)]
    exact dictGet_dictSet_self _ _ _

/-- C8: the preference store never propagates an error.  `load_config`
returns the empty record on a missing file and on any raised read or parse
error, and returns without raising on every input (the result is always
`ok`); `save_config` swallows every write failure and always returns
normally to its caller. -/
theorem c8_store_never_raises :
    (∀ readParse, load_config false readParse = Except.ok (Json.obj [])) ∧
    (∀ msg, load_config true (Except.error msg) = Except.ok (Json.obj [])) ∧
    (∀ fileExists readParse, ∃ j, load_config fileExists readParse = Except.ok j) ∧
    (∀ writeOutcome config, (save_config writeOutcome config).1 = Except.ok ()) := by
  refine ⟨fun _ => rfl, fun _ => rfl, ?_, ?_⟩
  · intro fe rp
    rcases fe with _ | _
    · exact ⟨_, rfl⟩
    · rcases rp with msg | j
      · exact ⟨_, rfl⟩
      · exact ⟨j, rfl⟩
  · intro w config
    rcases w with msg | u <;> rfl

/-- C10 (implicit frame effect): on a successful run the download phase
mutates the loaded record in place and rewrites the whole file, so every
key other than `download_location` and `quality` keeps its original value
in the record handed to `save_config`. -/
theorem c10_other_keys_preserved (config : List (String × Json))
    (outDir quality k : String)
    (h1 : k ≠ "download_location") (h2 : k ≠ "quality") :
    ∃ final,
      (downloadPhase config outDir quality (Except.ok ())).written = some final ∧
      dictGet final k = dictGet config k := by
  refine ⟨_, rfl, ?_⟩
  rw [dictGet_dictSet_ne _ _ _ _ h2, dictGet_dictSet_ne _ _ _ _ h1]

/-- C10, witness: a record with the unrecognized key `"other"` keeps its
value through a successful download phase. -/
theorem c10_witness :
    ∃ final,
      (downloadPhase [("other", Json.str "kept")] "/tmp/x" "720p"
        (Except.ok ())).written = some final ∧
      dictGet final "other" = some (Json.str "kept") := by
  obtain ⟨f, hf, hg⟩ :=
    c10_other_keys_preserved [("other", Json.str "kept")] "/tmp/x" "720p" "other"
      (by decide) (by decide)
  exact ⟨f, hf, by rw [hg]; rfl⟩

theorem computePercent_1_2 : computePercent 1 2 = 50 := by
  norm_num [computePercent, Rat.floor]

theorem computePercent_5_5 : computePercent 5 5 = 100 := by
  norm_num [computePercent, Rat.floor]

theorem computePercent_2_4 : computePercent 2 4 = 50 := by
  norm_num [computePercent, Rat.floor]

theorem hook_finished (st : RState) (db tb tbe : Option Nat) (sp : Option ℚ)
    (et : Option Nat) :
    hook st ⟨some "finished", db, tb, tbe, sp, et⟩
      = (⟨100, true⟩,
        (if (100 : Int) = st.lastShown then [] else
          [Write.carriage "Downloading: 100% | ? | ETA ?"]) ++
        (if (if (100 : Int) = st.lastShown then st.finishedLinePrinted else false)
          then [] else [Write.blank]) ++
        [Write.line "Processing file..."]) := by
  obtain ⟨ls, flp⟩ := st
  by_cases h : (100 : Int) = ls <;> rcases flp with _ | _ <;>
    simp [hook, _print_progress, _println, h] <;>
    first
    | exact h.symm
    | decide

theorem hook_dl_state (st : RState) (d t : Nat) (sp : Option ℚ) (et : Option Nat) :
    (hook st ⟨some "downloading", some d, some (t + 1), none, sp, et⟩).1
      = ⟨computePercent d (t + 1),
          if computePercent d (t + 1) = st.lastShown then st.finishedLinePrinted
          else false⟩ := by
  by_cases h : computePercent d (t + 1) = st.lastShown <;>
    simp [hook, _print_progress, h]

theorem hook_dl_writes (st : RState) (d t : Nat) (sp : Option ℚ) (et : Option Nat) :
    (hook st ⟨some "downloading", some d, some (t + 1), none, sp, et⟩).2 = [] ↔
      computePercent d (t + 1) = st.lastShown := by
  by_cases h : computePercent d (t + 1) = st.lastShown <;>
    simp [hook, _print_progress, h]

/-- C1, counterexample: a finished event does not always write the 100%
line.  After a downloading event that already rendered 100% (5 of 5 bytes),
the renderer state has `lastShown = 100`, and the next finished event
produces no in-place progress write at all — the de-dup is not bypassed. -/
theorem c1_counterexample :
    ((hook initState (dlSnap 5 5)).1).lastShown = 100 ∧
    carriageWrites (hook ((hook initState (dlSnap 5 5)).1) finSnap).2 = [] := by
  have h1 : (hook initState (dlSnap 5 5)).1 = ⟨100, false⟩ := by
    simp [hook, dlSnap, _print_progress, computePercent_5_5, initState]
  exact ⟨by rw [h1], by rw [h1]; decide⟩

/-- C1, amended: a finished event writes the 100% progress line exactly
when `lastShown ≠ 100`; when the last shown percent is already 100 the
write is suppressed by the same equality de-dup as downloading events. -/
theorem c1_amended (st : RState) (db tb tbe : Option Nat) (sp : Option ℚ)
    (et : Option Nat) :
    carriageWrites (hook st ⟨some "finished", db, tb, tbe, sp, et⟩).2
      = if st.lastShown = 100 then []
        else [Write.carriage "Downloading: 100% | ? | ETA ?"] := by
  rw [hook_finished]
  by_cases h : st.lastShown = 100
  · simp only [h, if_pos rfl, if_pos (rfl : (100 : Int) = 100)]
    rcases st.finishedLinePrinted with _ | _ <;> decide
  · have h2 : ¬((100 : Int) = st.lastShown) := fun hh => h hh.symm
    simp only [if_neg h, if_neg h2]
    decide

/-- C2, counterexample: from a reachable state in which the 100% line and
one `Processing file...` line were already emitted (one full line-group,
`finishedLinePrinted = true`), two further finished events emit the
`Processing file...` line twice more — with no intervening unknown-size or
percent render resetting `finishedLinePrinted` — so the line is not
emitted at most once per line-group. -/
theorem c2_counterexample :
    (runHooks (hook ((hook initState (dlSnap 5 5)).1) finSnap).1
        [finSnap, finSnap]).2
      = [Write.line "Processing file...", Write.line "Processing file..."] ∧
    ¬(countLine (runHooks (hook ((hook initState (dlSnap 5 5)).1) finSnap).1
        [finSnap, finSnap]).2 "Processing file..." ≤ 1) := by
  have h1 : (hook initState (dlSnap 5 5)).1 = ⟨100, false⟩ := by
    simp [hook, dlSnap, _print_progress, computePercent_5_5, initState]
  rw [h1]
  exact ⟨by decide, by decide⟩

theorem hook_finSnap_fixed :
    hook ⟨100, true⟩ finSnap = (⟨100, true⟩, [Write.line "Processing file..."]) := by
  decide

theorem runHooks_fin_fixed (n : Nat) :
    runHooks ⟨100, true⟩ (List.replicate n finSnap)
      = (⟨100, true⟩, List.replicate n (Write.line "Processing file...")) := by
  induction n with
  | zero => rfl
  | succ m ih =>
    rw [List.replicate_succ, runHooks]
    simp [hook_finSnap_fixed, ih, List.replicate_succ]

theorem hook_fin_once (st : RState) :
    countLine (hook st finSnap).2 "Processing file..." = 1 ∧
    countBlank (hook st finSnap).2 ≤ 1 := by
  have h := hook_finished st none none none none none
  rw [show (⟨some "finished", none, none, none, none, none⟩ : Snapshot) = finSnap
    from rfl] at h
  rw [h]
  by_cases hs : (100 : Int) = st.lastShown <;>
    rcases hb : st.finishedLinePrinted with _ | _ <;>
      simp [hs, hb, countLine, countBlank]

/-- C2, amended: the once-per-line-group guard of `finishedLinePrinted`
applies to the separating bare newline, which is emitted at most once
across any run of consecutive finished events; the `Processing file...`
text line itself is emitted once per finished event, so `n` consecutive
finished events emit it exactly `n` times. -/
theorem c2_amended (st : RState) (n : Nat) :
    countLine (runHooks st (List.replicate n finSnap)).2 "Processing file..." = n ∧
    countBlank (runHooks st (List.replicate n finSnap)).2 ≤ 1 := by
  cases n with
  | zero => exact ⟨rfl, Nat.zero_le 1⟩
  | succ m =>
    rw [List.replicate_succ, runHooks]
    have hst : (hook st finSnap).1 = ⟨100, true⟩ := by
      have h := hook_finished st none none none none none
      rw [show (⟨some "finished", none, none, none, none, none⟩ : Snapshot) = finSnap
        from rfl] at h
      rw [h]
    rw [hst, runHooks_fin_fixed]
    have h1 := (hook_fin_once st).1
    have h2 := (hook_fin_once st).2
    simp only [countLine, countBlank, List.count_append] at h1 h2 ⊢
    constructor
    · rw [h1]
      simp [List.count_replicate]
      omega
    · have h3 : List.count Write.blank
          (List.replicate m (Write.line "Processing file...")) = 0 := by
        simp [List.count_replicate]
      omega

/-- C4, counterexample: a percent-known event arriving right after an
unknown-size render can be suppressed.  After rendering 50% (1 of 2 bytes)
and then an unknown-size render, the retained `lastShown` is still 50, and
a following percent-known event computing 50% produces no output. -/
theorem c4_counterexample :
    ((hook ((hook initState (dlSnap 1 2)).1) unknownSnap).1).lastShown = 50 ∧
    (hook ((hook ((hook initState (dlSnap 1 2)).1) unknownSnap).1)
      (dlSnap 1 2)).2 = [] := by
  have h1 : (hook initState (dlSnap 1 2)).1 = ⟨50, false⟩ := by
    simp [hook, dlSnap, _print_progress, computePercent_1_2, initState]
  have h2 : (hook (⟨50, false⟩ : RState) unknownSnap).1 = ⟨50, false⟩ := by
    decide
  rw [h1, h2]
  exact ⟨rfl, (hook_dl_writes ⟨50, false⟩ 1 1 none none).mpr
    (by rw [computePercent_1_2])⟩

/-- C4, amended: an unknown-size render is never suppressed (it always
writes exactly one line) and does not change `lastShown`; consequently a
percent-known render arriving right after an unknown-size render is
suppressed exactly when its computed percent equals the percent shown
before the unknown-size phase — the de-dup state survives the switch of
render kinds rather than being cleared by it. -/
theorem c4_amended (st : RState) (d t : Nat) (sp : Option ℚ) (et : Option Nat) :
    (hook st unknownSnap).2.length = 1 ∧
    ((hook st unknownSnap).1).lastShown = st.lastShown ∧
    ((hook ((hook st unknownSnap).1)
        ⟨some "downloading", some d, some (t + 1), none, sp, et⟩).2 = [] ↔
      computePercent d (t + 1) = st.lastShown) := by
  refine ⟨rfl, rfl, ?_⟩
  exact hook_dl_writes _ d t sp et

/-- C4, witness for the amended statement at a concrete input. -/
theorem c4_amended_witness :
    (hook ((hook (⟨50, false⟩ : RState) unknownSnap).1) (dlSnap 1 2)).2 = [] :=
  (c4_amended ⟨50, false⟩ 1 1 none none).2.2.mpr (by rw [computePercent_1_2])

/-- C9, counterexample: two consecutive downloading events with known total
and identical computed percent do not always produce exactly one write.
From the reachable state that has already shown 50%, the pair produces zero
writes: the first event is itself suppressed by the de-dup. -/
theorem c9_counterexample :
    (runHooks ((hook initState (dlSnap 1 2)).1) [dlSnap 1 2, dlSnap 1 2]).2
      = [] ∧
    ¬((runHooks ((hook initState (dlSnap 1 2)).1)
        [dlSnap 1 2, dlSnap 1 2]).2.length = 1) := by
  have h1 : (hook initState (dlSnap 1 2)).1 = ⟨50, false⟩ := by
    simp [hook, dlSnap, _print_progress, computePercent_1_2, initState]
  have hs : hook (⟨50, false⟩ : RState) (dlSnap 1 2) = (⟨50, false⟩, []) := by
    simp [hook, dlSnap, _print_progress, computePercent_1_2]
  rw [h1, runHooks, hs, runHooks, hs, runHooks]
  exact ⟨rfl, by decide⟩

/-- C9, amended: two consecutive downloading events with known total whose
computed (clamped, truncated) percent is identical produce at most one line
write — the second event never writes, and the first writes exactly when
its percent differs from the state's `lastShown` (so exactly one write from
any state not already showing that percent, e.g. the initial state). -/
theorem c9_amended (st : RState) (d1 t1 d2 t2 : Nat) (sp1 sp2 : Option ℚ)
    (et1 et2 : Option Nat)
    (hp : computePercent d1 (t1 + 1) = computePercent d2 (t2 + 1)) :
    (hook ((hook st ⟨some "downloading", some d1, some (t1 + 1), none, sp1, et1⟩).1)
        ⟨some "downloading", some d2, some (t2 + 1), none, sp2, et2⟩).2 = [] ∧
    ((hook st ⟨some "downloading", some d1, some (t1 + 1), none, sp1, et1⟩).2 = []
      ↔ computePercent d1 (t1 + 1) = st.lastShown) := by
  refine ⟨?_, hook_dl_writes st d1 t1 sp1 et1⟩
  rw [hook_dl_state]
  exact (hook_dl_writes _ d2 t2 sp2 et2).mpr hp.symm

/-- C9, witness for the amended statement: 1 of 2 bytes and 2 of 4 bytes
both compute 50%, and from the initial state the first event writes while
the second is silent. -/
theorem c9_amended_witness :
    (hook ((hook initState (dlSnap 1 2)).1) (dlSnap 2 4)).2 = [] ∧
    ((hook initState (dlSnap 1 2)).2 = [] ↔ computePercent 1 2 = (-1 : Int)) := by
  have h := c9_amended initState 1 1 2 3 none none none none
    (by rw [computePercent_1_2, computePercent_2_4])
  exact h
